import Mathlib

/-!
Verification of the agent E2E test framework's core: the configuration
defaulting engine, the default agent-name generator, the registry of agent
test configurations (`agent-test-configs.ts`), and the generic lifecycle
test body with its page-object assertion semantics
(`generic-agent-lifecycle.spec.ts`, `agents.page.ts`).

Conventions of the shallow embedding:
  * A TypeScript object field that is optional is embedded three-state as
    `Option (Option String)`: `none` = the key is absent from the object
    literal, `some none` = the key is present with value `undefined`,
    `some (some v)` = the key is present with string value `v`.  This is
    needed because JavaScript object spread (`{...a, ...b}`) copies every
    own enumerable key of `b`, including keys whose value is `undefined`.
  * Impure randomness (`generateRandString`) is embedded by passing an
    explicit random source `Nat → Nat` (the stream of raw random draws).
  * Asynchronous page-object methods are embedded as the list of primitive
    page interactions they perform, in program order (each `await` sequences
    its action strictly after the previous one).
-/

namespace AgentE2E

/-- One call made by a `configureAgentSettings` hook on the page object.
The hook bodies in `agent-test-configs.ts` consist of these calls. -/
inductive ConfigCall where
  | setAgentName (name : String)
  | selectApp (appID : Option String)
  | verifyAppSelected (appID : Option String)
  | setSchedule (schedule : Option String)
  | setSlackChannel (channel : Option String)
deriving DecidableEq

/-- The plain-data view of a resolved agent configuration that the
`configureAgentSettings` hooks read (`config.appID`,
`config.initialSchedule`, `config.slackChannel`, ...).  A field holds
`none` when the corresponding key is `undefined` at run time. -/
structure ConfigData where
  agentDisplayName : String
  user : Option String
  appID : Option String
  slackChannel : Option String
  initialSchedule : Option String
  updatedSchedule : Option String
  creativeType : Option String
  geoLocation : Option String
deriving DecidableEq

/-- A stream of raw random draws, standing for the impure random source
behind `generateRandString`. -/
abbrev RandSource := Nat → Nat

/-- `() => string`: a name generator, made explicit in its random source. -/
abbrev NameGen := RandSource → String

/-- `(agentsPage, agentName, config) => Promise<void>`: a configuration
hook, embedded as the list of page calls it performs in order.  The opaque
page handle is elided; the hook reads the data view of its config. -/
abbrev ConfigureHook := String → ConfigData → List ConfigCall

/-- The `AgentTestConfig` interface of `agent-test-configs.ts`:
`agentDisplayName` and `configureAgentSettings` are required, every other
field is optional (three-state encoded, see the file comment). -/
structure AgentTestConfig where
  agentDisplayName : String
  configureAgentSettings : ConfigureHook
  getAgentName : Option (Option NameGen)
  user : Option (Option String)
  appID : Option (Option String)
  slackChannel : Option (Option String)
  initialSchedule : Option (Option String)
  updatedSchedule : Option (Option String)
  creativeType : Option (Option String)
  geoLocation : Option (Option String)

/-- The record type of `DEFAULT_CONFIG`: baseline values for the five
defaultable fields. -/
structure DefaultConfig where
  user : String
  appID : String
  slackChannel : String
  initialSchedule : String
  updatedSchedule : String
deriving DecidableEq

/-- `DEFAULT_CONFIG` of `agent-test-configs.ts`. -/
def DEFAULT_CONFIG : DefaultConfig :=
  { user := "qualityguild.advertiser"
    appID := "android.non.organic.regular"
    slackChannel := "rnd-arch-data-availability-poc"
    initialSchedule := "Daily at 6:00 PM"
    updatedSchedule := "Daily at 12:00 PM" }

/-- The alphanumeric alphabet a random suffix draws from. -/
def randAlphabet : List Char :=
  "ABCDEFGHIJKLMNOPQRSTUVWXYZabcdefghijklmnopqrstuvwxyz0123456789".data

/-- Modelled from the spec: `generateRandString` is imported from
`../src/test-helpers`, a file not present in the repository snapshot; per
the spec it returns a random string of the requested length (the call site
requests 8) drawn from a large alphabet by a high-entropy random source.
Character `i` is picked from the alphabet by the `i`-th raw draw. -/
def generateRandString (n : Nat) (src : RandSource) : String :=
  ⟨(List.range n).map fun i => randAlphabet.getD (src i % randAlphabet.length) 'A'⟩

/-- `agentDisplayName.replace(/\s+/g, '')`: removing every run of
whitespace is removing every whitespace character. -/
def stripWhitespaceChars (s : String) : String :=
  ⟨s.data.filter fun c => !c.isWhitespace⟩

/-- `createDefaultGetAgentName` of `agent-test-configs.ts`. -/
def createDefaultGetAgentName (agentDisplayName : String) : NameGen :=
  fun src => stripWhitespaceChars agentDisplayName ++ "_" ++ generateRandString 8 src

/-- The spec's description of normalization: strip whitespace and all
non-identifier characters from the seed (identifier characters in the
JavaScript sense: alphanumerics, underscore, dollar). -/
def stripToIdentifierChars (s : String) : String :=
  ⟨s.data.filter fun c => c.isAlphanum || c == '_' || c == '$'⟩

/-- Resolution of one defaultable field under JavaScript object spread
`{...DEFAULT_CONFIG, ...config}`: if the entry's key is present (even with
value `undefined`) the entry's value wins; otherwise the default is kept. -/
def mergeField (d : String) (o : Option (Option String)) : Option String :=
  match o with
  | none => some d
  | some u => u

/-- A fully resolved agent configuration, as produced by the
`AGENT_TEST_CONFIGS` map: `getAgentName` is always installed. -/
structure ResolvedConfig where
  agentDisplayName : String
  configureAgentSettings : ConfigureHook
  getAgentName : NameGen
  user : Option String
  appID : Option String
  slackChannel : Option String
  initialSchedule : Option String
  updatedSchedule : Option String
  creativeType : Option String
  geoLocation : Option String

/-- The body of the `AGENT_TEST_CONFIGS` map applied to one entry:
`{...DEFAULT_CONFIG, ...config, getAgentName: config.getAgentName ||
createDefaultGetAgentName(config.agentDisplayName)}`.  The `||` falls back
to the default generator when `getAgentName` is absent or `undefined`
(both are falsy).  Fields without a default (`creativeType`,
`geoLocation`) keep the entry's value when its key is present and are
`undefined` otherwise, which `Option.join` computes. -/
def resolveEntry (d : DefaultConfig) (e : AgentTestConfig) : ResolvedConfig :=
  { agentDisplayName := e.agentDisplayName
    configureAgentSettings := e.configureAgentSettings
    getAgentName :=
      match e.getAgentName with
      | some (some g) => g
      | _ => createDefaultGetAgentName e.agentDisplayName
    user := mergeField d.user e.user
    appID := mergeField d.appID e.appID
    slackChannel := mergeField d.slackChannel e.slackChannel
    initialSchedule := mergeField d.initialSchedule e.initialSchedule
    updatedSchedule := mergeField d.updatedSchedule e.updatedSchedule
    creativeType := e.creativeType.join
    geoLocation := e.geoLocation.join }

/-- The data view the hooks receive of a resolved configuration. -/
def ResolvedConfig.data (c : ResolvedConfig) : ConfigData :=
  { agentDisplayName := c.agentDisplayName
    user := c.user
    appID := c.appID
    slackChannel := c.slackChannel
    initialSchedule := c.initialSchedule
    updatedSchedule := c.updatedSchedule
    creativeType := c.creativeType
    geoLocation := c.geoLocation }

/-- The hook of the `'Monitor app versions changes'` registry entry. -/
def monitorHook : ConfigureHook := fun agentName cfg =>
  [ ConfigCall.setAgentName agentName
  , ConfigCall.selectApp cfg.appID
  , ConfigCall.verifyAppSelected cfg.appID
  , ConfigCall.setSchedule cfg.initialSchedule
  , ConfigCall.setSlackChannel cfg.slackChannel ]

/-- The hook of the `'Deep research analysis'` registry entry (it skips
`setSchedule`: the agent defaults to `'No schedule'`). -/
def deepResearchHook : ConfigureHook := fun agentName cfg =>
  [ ConfigCall.setAgentName agentName
  , ConfigCall.selectApp cfg.appID
  , ConfigCall.verifyAppSelected cfg.appID
  , ConfigCall.setSlackChannel cfg.slackChannel ]

/-- The first `AGENT_CONFIGS` entry: only the two required fields. -/
def monitorEntry : AgentTestConfig :=
  { agentDisplayName := "Monitor app versions changes"
    configureAgentSettings := monitorHook
    getAgentName := none
    user := none
    appID := none
    slackChannel := none
    initialSchedule := none
    updatedSchedule := none
    creativeType := none
    geoLocation := none }

/-- The second `AGENT_CONFIGS` entry: overrides `updatedSchedule`. -/
def deepResearchEntry : AgentTestConfig :=
  { agentDisplayName := "Deep research analysis"
    configureAgentSettings := deepResearchHook
    getAgentName := none
    user := none
    appID := none
    slackChannel := none
    initialSchedule := none
    updatedSchedule := some (some "Weekly on Monday")
    creativeType := none
    geoLocation := none }

/-- `AGENT_CONFIGS` of `agent-test-configs.ts` (the commented-out third
entry is not part of the registry). -/
def AGENT_CONFIGS : List AgentTestConfig := [monitorEntry, deepResearchEntry]

/-- `AGENT_TEST_CONFIGS`: the registry with defaults applied. -/
def AGENT_TEST_CONFIGS : List ResolvedConfig :=
  AGENT_CONFIGS.map (resolveEntry DEFAULT_CONFIG)

/-- The five fields of `DEFAULT_CONFIG`, as an enumerable index. -/
inductive DefaultField where
  | user
  | appID
  | slackChannel
  | initialSchedule
  | updatedSchedule
deriving DecidableEq

/-- Projection of a `DefaultConfig` at a field index. -/
def DefaultConfig.field (d : DefaultConfig) : DefaultField → String
  | DefaultField.user => d.user
  | DefaultField.appID => d.appID
  | DefaultField.slackChannel => d.slackChannel
  | DefaultField.initialSchedule => d.initialSchedule
  | DefaultField.updatedSchedule => d.updatedSchedule

/-- Projection of a registry entry at a defaultable field index. -/
def AgentTestConfig.fieldOf (e : AgentTestConfig) : DefaultField → Option (Option String)
  | DefaultField.user => e.user
  | DefaultField.appID => e.appID
  | DefaultField.slackChannel => e.slackChannel
  | DefaultField.initialSchedule => e.initialSchedule
  | DefaultField.updatedSchedule => e.updatedSchedule

/-- Projection of a resolved configuration at a defaultable field index. -/
def ResolvedConfig.fieldOf (c : ResolvedConfig) : DefaultField → Option String
  | DefaultField.user => c.user
  | DefaultField.appID => c.appID
  | DefaultField.slackChannel => c.slackChannel
  | DefaultField.initialSchedule => c.initialSchedule
  | DefaultField.updatedSchedule => c.updatedSchedule

/-- An entry as an author writes it, before the `AgentTestConfig`
interface is checked: even the two required keys may be missing.  The
load-time (TypeScript compile-time) check is embedded as `typeCheckEntry`
below. -/
structure RawEntry where
  agentDisplayName : Option String
  configureAgentSettings : Option ConfigureHook
  getAgentName : Option (Option NameGen)
  user : Option (Option String)
  appID : Option (Option String)
  slackChannel : Option (Option String)
  initialSchedule : Option (Option String)
  updatedSchedule : Option (Option String)
  creativeType : Option (Option String)
  geoLocation : Option (Option String)

/-- The check the `AgentTestConfig` interface imposes on every registry
entry at load/compile time: `agentDisplayName` and
`configureAgentSettings` are its only two non-optional members, so an
entry lacking either is rejected; an entry with both is accepted
unchanged. -/
def typeCheckEntry (e : RawEntry) : Option AgentTestConfig :=
  match e.agentDisplayName, e.configureAgentSettings with
  | some d, some h =>
      some { agentDisplayName := d
             configureAgentSettings := h
             getAgentName := e.getAgentName
             user := e.user
             appID := e.appID
             slackChannel := e.slackChannel
             initialSchedule := e.initialSchedule
             updatedSchedule := e.updatedSchedule
             creativeType := e.creativeType
             geoLocation := e.geoLocation }
  | _, _ => none

/-- Every generated random suffix has exactly the requested length. -/
theorem generateRandString_length (n : Nat) (src : RandSource) :
    (generateRandString n src).length = n := by
  simp [generateRandString, String.length]

/-- C1: for every entry of the registry and every field of
`DEFAULT_CONFIG`, the resolved configuration carries the entry's value
when the entry's key is present and the default when it is not — the
shallow, last-write-wins merge of `{...DEFAULT_CONFIG, ...config}`.
Concretely: the second entry's `updatedSchedule` override wins while the
first entry keeps the default, and both entries keep the default `user`. -/
theorem registry_merge_default_override :
    (∀ f : DefaultField, AGENT_CONFIGS.Forall fun e =>
      (resolveEntry DEFAULT_CONFIG e).fieldOf f =
        match e.fieldOf f with
        | some v => v
        | none => some (DEFAULT_CONFIG.field f))
    ∧ AGENT_TEST_CONFIGS.map (fun c => c.fieldOf DefaultField.updatedSchedule) =
        [some "Daily at 12:00 PM", some "Weekly on Monday"]
    ∧ AGENT_TEST_CONFIGS.map (fun c => c.fieldOf DefaultField.user) =
        [some "qualityguild.advertiser", some "qualityguild.advertiser"] := by
  refine ⟨fun f => ?_, by decide, by decide⟩
  cases f <;> decide

/-- C10: an entry whose object literal contains one of the defaultable
keys with value `undefined` resolves to `undefined` for that key, not to
the default — the spread's override-wins applies to explicitly-undefined
values, so such a resolved configuration is not fully populated. -/
theorem explicit_undefined_overrides_default :
    ∀ (e : AgentTestConfig) (f : DefaultField),
      e.fieldOf f = some none →
      (resolveEntry DEFAULT_CONFIG e).fieldOf f = none := by
  intro e f h
  cases f <;>
    simp_all [resolveEntry, AgentTestConfig.fieldOf, ResolvedConfig.fieldOf, mergeField]

/-- Witness for C10: a registry-shaped entry carrying `appID: undefined`
resolves to an `undefined` appID even though the default exists. -/
theorem explicit_undefined_overrides_default_witness :
    (resolveEntry DEFAULT_CONFIG
        { monitorEntry with appID := some none }).fieldOf DefaultField.appID = none :=
  explicit_undefined_overrides_default { monitorEntry with appID := some none }
    DefaultField.appID rfl

/-- C3: an entry passes the load-time check exactly when it supplies both
`agentDisplayName` and `configureAgentSettings`; omitting either fails
resolution, supplying both always succeeds. -/
theorem entry_resolution_requires_name_and_hook :
    ∀ e : RawEntry,
      (typeCheckEntry e).isSome =
        (e.agentDisplayName.isSome && e.configureAgentSettings.isSome) := by
  intro e
  cases h1 : e.agentDisplayName <;> cases h2 : e.configureAgentSettings <;>
    simp [typeCheckEntry, h1, h2]

/-- C2: for both registry entries (neither supplies `getAgentName`), the
resolved generator returns `normalizedSeed ++ "_" ++ suffix` where the
normalized seed is the display name with whitespace and non-identifier
characters stripped, and the random suffix has (at least) 8 characters. -/
theorem default_name_shape_for_registry :
    ∀ src : RandSource, AGENT_TEST_CONFIGS.Forall fun c =>
      c.getAgentName src =
          stripToIdentifierChars c.agentDisplayName ++ "_" ++ generateRandString 8 src
        ∧ 8 ≤ (generateRandString 8 src).length := by
  intro src
  have h8 : 8 ≤ (generateRandString 8 src).length := by
    rw [generateRandString_length]
  have h1 : stripWhitespaceChars "Monitor app versions changes" =
      stripToIdentifierChars "Monitor app versions changes" := by decide
  have h2 : stripWhitespaceChars "Deep research analysis" =
      stripToIdentifierChars "Deep research analysis" := by decide
  refine ⟨⟨?_, h8⟩, ⟨?_, h8⟩⟩
  · show createDefaultGetAgentName "Monitor app versions changes" src = _
    rw [createDefaultGetAgentName, h1]; rfl
  · show createDefaultGetAgentName "Deep research analysis" src = _
    rw [createDefaultGetAgentName, h2]; rfl

/-- Models `new RegExp("^" ++ name ++ "$").test(text)` for the names this
suite generates (alphanumerics and underscores, never regex
metacharacters): the anchored pattern accepts exactly the full
identifier. -/
def anchoredNameMatches (name text : String) : Bool := text == name

/-- How many agent-card paragraph texts of a listing the anchored
name filter of the page object accepts. -/
def countExactMatches (listing : List String) (name : String) : Nat :=
  (listing.filter fun t => anchoredNameMatches name t).length

/-- `expectAgentVisible`: filters the listing's agent-card paragraphs with
the anchored regex and asserts `locator.first()` is visible.  With
`listing` the texts of those paragraphs, the assertion succeeds exactly
when some text matches the filter. -/
def expectAgentVisiblePasses (listing : List String) (name : String) : Bool :=
  listing.any fun t => anchoredNameMatches name t

/-- `expectAgentNotVisible`: asserts the same filtered locator
`toHaveCount(0)`. -/
def expectAgentNotVisiblePasses (listing : List String) (name : String) : Bool :=
  countExactMatches listing name == 0

/-- The status check `runNowAgent` performs on the awaited run-agent
response: throw carrying the observed status unless it is 200. -/
def runNowStatusCheck (status : Nat) : Except String Unit :=
  if status != 200 then
    Except.error ("Agent execution failed: Expected 200 but received " ++ toString status)
  else
    Except.ok ()

/-- `needle` occurs in `hay` as a contiguous substring. -/
def containsSubstring (hay needle : String) : Bool :=
  (List.range (hay.length + 1)).any fun i => needle.data.isPrefixOf (hay.data.drop i)

/-- Anything of the shape `a ++ b` contains `b` as a substring. -/
theorem containsSubstring_append_right (a b : String) :
    containsSubstring (a ++ b) b = true := by
  refine List.any_eq_true.mpr ⟨a.length, List.mem_range.mpr ?_, ?_⟩
  · have : (a ++ b).length = a.length + b.length := String.length_append a b
    omega
  · show b.data.isPrefixOf ((a ++ b).data.drop a.length) = true
    rw [String.data_append]
    rw [show a.length = a.data.length from rfl, List.drop_left]
    exact List.isPrefixOf_iff_prefix.mpr (List.prefix_refl b.data)

/-- C4 counterexample: on a listing showing the generated name twice, the
verify-created assertion still passes — so it asserts visibility at least
once, not exactly once. -/
theorem expectAgentVisible_passes_on_duplicate_listing :
    expectAgentVisiblePasses ["Foo_AB12CD34", "Foo_AB12CD34"] "Foo_AB12CD34" = true
    ∧ countExactMatches ["Foo_AB12CD34", "Foo_AB12CD34"] "Foo_AB12CD34" = 2 := by
  decide

/-- C4 (amended): the verify-created assertion matches the generated name
as a full identifier — a query for "Foo_AB12" does not match an entity
named "Foo_AB12CD34" — and asserts the name is visible at least once in
the listing. -/
theorem expectAgentVisible_exact_full_match :
    (∀ (listing : List String) (name : String),
      expectAgentVisiblePasses listing name = true ↔
        1 ≤ countExactMatches listing name)
    ∧ anchoredNameMatches "Foo_AB12" "Foo_AB12CD34" = false := by
  refine ⟨fun listing name => ?_, by decide⟩
  constructor
  · intro h
    obtain ⟨x, hx, hpx⟩ := List.any_eq_true.mp h
    have hm : x ∈ listing.filter fun t => anchoredNameMatches name t :=
      List.mem_filter.mpr ⟨hx, hpx⟩
    exact List.length_pos_iff_exists_mem.mpr ⟨x, hm⟩
  · intro h
    have : listing.filter (fun t => anchoredNameMatches name t) ≠ [] := by
      intro hnil
      rw [countExactMatches, hnil] at h
      simp at h
    obtain ⟨x, hx⟩ := List.exists_mem_of_ne_nil _ this
    obtain ⟨hmem, hp⟩ := List.mem_filter.mp hx
    exact List.any_eq_true.mpr ⟨x, hmem, hp⟩

/-- C5: the run-now status check raises exactly on a non-200 observed
status, the failure message carries the observed status code as a
substring, and on 200 it completes without error. -/
theorem runNow_errors_iff_non_200 :
    ∀ status : Nat,
      (runNowStatusCheck status = Except.ok () ↔ status = 200)
      ∧ (status ≠ 200 →
          runNowStatusCheck status =
            Except.error
              ("Agent execution failed: Expected 200 but received " ++ toString status)
          ∧ containsSubstring
              ("Agent execution failed: Expected 200 but received " ++ toString status)
              (toString status) = true) := by
  intro status
  constructor
  · by_cases h : status = 200 <;> simp [runNowStatusCheck, h]
  · intro h
    exact ⟨by simp [runNowStatusCheck, h], containsSubstring_append_right _ _⟩

/-- A primitive page interaction, as performed in program order by the
page-object methods of `agents.page.ts` (each `await` strictly sequences
its action after the previous one). -/
inductive PageAction where
  | selectAgentCard (displayName : String)
  | hookCall (c : ConfigCall)
  | waitNetworkIdle
  | clickDeploy
  | waitURLOverview
  | reload
  | assertVisibleExact (name : String)
  | assertCountZeroExact (name : String)
  | assertScheduleShown (name : String) (schedule : Option String)
  | openCardMenu (name : String)
  | clickEditMenuItem
  | clickScheduleDropdown
  | clickScheduleOption (schedule : Option String)
  | clickSaveChanges
  | clickRunNowMenuItem
  | awaitRunResponse
  | clickDeleteMenuItem
  | confirmDelete
deriving DecidableEq

/-- `waitForPageLoad`: one network-idle wait. -/
def waitForPageLoadActs : List PageAction := [PageAction.waitNetworkIdle]

/-- `expectAgentVisible`: wait for page load, then assert the anchored
exact-name locator's first element is visible. -/
def expectAgentVisibleActs (name : String) : List PageAction :=
  waitForPageLoadActs ++ [PageAction.assertVisibleExact name]

/-- `refreshAndExpectAgentVisible`: reload, wait, re-assert visibility. -/
def refreshAndExpectAgentVisibleActs (name : String) : List PageAction :=
  [PageAction.reload] ++ waitForPageLoadActs ++ expectAgentVisibleActs name

/-- `selectAgent`: click Deploy Agent on the card with the display name. -/
def selectAgentActs (displayName : String) : List PageAction :=
  [PageAction.selectAgentCard displayName]

/-- `activateAgent`: click Deploy Agent, wait for the overview URL, wait
for network idle. -/
def activateAgentActs : List PageAction :=
  [PageAction.clickDeploy, PageAction.waitURLOverview, PageAction.waitNetworkIdle]

/-- `editAgent`: open the card's three-dots menu, click Edit, wait. -/
def editAgentActs (name : String) : List PageAction :=
  [PageAction.openCardMenu name, PageAction.clickEditMenuItem] ++ waitForPageLoadActs

/-- `updateSchedule`: open the schedule dropdown, pick the option, wait. -/
def updateScheduleActs (schedule : Option String) : List PageAction :=
  [PageAction.clickScheduleDropdown, PageAction.clickScheduleOption schedule,
    PageAction.waitNetworkIdle]

/-- `saveChanges`: click save, wait for network idle, wait for the
return-to-overview navigation. -/
def saveChangesActs : List PageAction :=
  [PageAction.clickSaveChanges, PageAction.waitNetworkIdle, PageAction.waitURLOverview]

/-- `expectAgentSchedule`: wait, assert the schedule text in the card. -/
def expectAgentScheduleActs (name : String) (schedule : Option String) : List PageAction :=
  waitForPageLoadActs ++ [PageAction.assertScheduleShown name schedule]

/-- `refreshAndExpectAgentSchedule`: reload, wait, re-assert schedule. -/
def refreshAndExpectAgentScheduleActs (name : String) (schedule : Option String) :
    List PageAction :=
  [PageAction.reload] ++ waitForPageLoadActs ++ expectAgentScheduleActs name schedule

/-- `expectAgentNotVisible`: wait, assert the anchored exact-name locator
has count zero. -/
def expectAgentNotVisibleActs (name : String) : List PageAction :=
  waitForPageLoadActs ++ [PageAction.assertCountZeroExact name]

/-- `deleteAgent`: open menu, click Delete, confirm in the dialog, wait,
then (still inside the method, before it returns) assert the agent is no
longer visible. -/
def deleteAgentActs (name : String) : List PageAction :=
  [PageAction.openCardMenu name, PageAction.clickDeleteMenuItem,
    PageAction.confirmDelete, PageAction.waitNetworkIdle] ++ expectAgentNotVisibleActs name

/-- `refreshAndExpectAgentNotVisible`: reload, wait, re-assert absence. -/
def refreshAndExpectAgentNotVisibleActs (name : String) : List PageAction :=
  [PageAction.reload] ++ waitForPageLoadActs ++ expectAgentNotVisibleActs name

/-- The ten `test.step` blocks of the generic lifecycle test body, in
source order. -/
inductive LifecycleStep where
  | selectStep
  | configureStep
  | deployStep
  | verifyCreatedStep
  | verifyPersistedStep
  | runNowStep
  | editScheduleStep
  | verifyUpdatedStep
  | deleteStep
  | verifyDeletedStep
deriving DecidableEq

/-- The order in which `generic-agent-lifecycle.spec.ts` awaits its ten
`test.step` blocks. -/
def lifecycleOrder : List LifecycleStep :=
  [LifecycleStep.selectStep, LifecycleStep.configureStep, LifecycleStep.deployStep,
    LifecycleStep.verifyCreatedStep, LifecycleStep.verifyPersistedStep,
    LifecycleStep.runNowStep, LifecycleStep.editScheduleStep,
    LifecycleStep.verifyUpdatedStep, LifecycleStep.deleteStep,
    LifecycleStep.verifyDeletedStep]

/-- The page interactions each `test.step` block performs for a resolved
configuration and its generated agent name.  The run-now step's body is
commented out in the source (`// await agentsPage.runNowAgent(agentName)`),
so it performs none. -/
def stepActions (c : ResolvedConfig) (agentName : String) : LifecycleStep → List PageAction
  | LifecycleStep.selectStep => selectAgentActs c.agentDisplayName
  | LifecycleStep.configureStep =>
      (c.configureAgentSettings agentName c.data).map PageAction.hookCall
        ++ [PageAction.waitNetworkIdle]
  | LifecycleStep.deployStep => activateAgentActs
  | LifecycleStep.verifyCreatedStep => expectAgentVisibleActs agentName
  | LifecycleStep.verifyPersistedStep => refreshAndExpectAgentVisibleActs agentName
  | LifecycleStep.runNowStep => []
  | LifecycleStep.editScheduleStep =>
      editAgentActs agentName ++ updateScheduleActs c.updatedSchedule ++ saveChangesActs
  | LifecycleStep.verifyUpdatedStep =>
      expectAgentScheduleActs agentName c.updatedSchedule
        ++ refreshAndExpectAgentScheduleActs agentName c.updatedSchedule
  | LifecycleStep.deleteStep => deleteAgentActs agentName
  | LifecycleStep.verifyDeletedStep => refreshAndExpectAgentNotVisibleActs agentName

/-- The whole lifecycle run as a trace: every page interaction tagged with
the index of the `test.step` block that performs it, in execution order. -/
def lifecycleTrace (c : ResolvedConfig) (agentName : String) : List (Nat × PageAction) :=
  lifecycleOrder.enum.flatMap fun p => (stepActions c agentName p.2).map fun a => (p.1, a)

/-- In a trace built by flat-mapping an enumerated step list, the step
tags never decrease: an action of a later step never precedes an action of
an earlier one. -/
theorem pairwise_fst_le_enum_flatMap {α β : Type} (l : List α) (g : Nat → α → List β) :
    List.Pairwise (fun p q : Nat × β => p.1 ≤ q.1)
      (l.enum.flatMap fun p => (g p.1 p.2).map fun b => (p.1, b)) := by
  show List.Pairwise _ (List.flatten (l.enum.map _))
  rw [List.pairwise_flatten]
  refine ⟨?_, ?_⟩
  · intro block hb
    obtain ⟨p, _, rfl⟩ := List.mem_map.mp hb
    rw [List.pairwise_map]
    exact List.pairwise_of_forall fun _ _ => le_refl p.1
  · rw [List.pairwise_map]
    have hfst : List.Pairwise (fun p q : Nat × α => p.1 ≤ q.1) l.enum := by
      have hm : List.Pairwise (fun a b : Nat => a ≤ b) (l.enum.map Prod.fst) := by
        rw [show l.enum = List.enumFrom 0 l from rfl, List.enumFrom_map_fst]
        exact (List.pairwise_lt_range' 0 l.length).imp Nat.le_of_lt
      exact List.pairwise_map.mp hm
    refine hfst.imp ?_
    intro p q hpq x hx y hy
    obtain ⟨_, _, rfl⟩ := List.mem_map.mp hx
    obtain ⟨_, _, rfl⟩ := List.mem_map.mp hy
    exact hpq

/-- C6: the generated lifecycle test runs its steps in the fixed order
select, configure, deploy, verify-visible, reload-and-verify,
(disabled run-now), edit-and-update-schedule,
verify-schedule-and-reload-verify, delete, reload-and-verify-absent; the
configure step is the hook's calls followed by a network-idle wait; the
run-now step performs nothing; and along the trace an action of step n+1
never precedes an action of step n. -/
theorem lifecycle_fixed_order_sequential :
    ∀ (c : ResolvedConfig) (agentName : String),
      lifecycleOrder =
        [LifecycleStep.selectStep, LifecycleStep.configureStep, LifecycleStep.deployStep,
          LifecycleStep.verifyCreatedStep, LifecycleStep.verifyPersistedStep,
          LifecycleStep.runNowStep, LifecycleStep.editScheduleStep,
          LifecycleStep.verifyUpdatedStep, LifecycleStep.deleteStep,
          LifecycleStep.verifyDeletedStep]
      ∧ stepActions c agentName LifecycleStep.runNowStep = []
      ∧ stepActions c agentName LifecycleStep.configureStep =
          (c.configureAgentSettings agentName c.data).map PageAction.hookCall
            ++ [PageAction.waitNetworkIdle]
      ∧ List.Pairwise (fun p q => p.1 ≤ q.1) (lifecycleTrace c agentName) := by
  intro c agentName
  exact ⟨rfl, rfl, rfl,
    pairwise_fst_le_enum_flatMap lifecycleOrder fun _ s => stepActions c agentName s⟩

/-- C7: the delete step's final action, before `deleteAgent` returns, is
the zero-count assertion on the deleted name (immediate absence check);
the next and final step reloads and repeats exactly that assertion; and
the zero-count assertion passes precisely when the listing holds no exact
match of the name. -/
theorem delete_asserts_absence_immediately_and_after_reload :
    ∀ (c : ResolvedConfig) (agentName : String) (listing : List String),
      stepActions c agentName LifecycleStep.deleteStep =
        [PageAction.openCardMenu agentName, PageAction.clickDeleteMenuItem,
          PageAction.confirmDelete, PageAction.waitNetworkIdle,
          PageAction.waitNetworkIdle, PageAction.assertCountZeroExact agentName]
      ∧ stepActions c agentName LifecycleStep.verifyDeletedStep =
          [PageAction.reload, PageAction.waitNetworkIdle, PageAction.waitNetworkIdle,
            PageAction.assertCountZeroExact agentName]
      ∧ (expectAgentNotVisiblePasses listing agentName = true ↔
          countExactMatches listing agentName = 0) := by
  intro c agentName listing
  refine ⟨rfl, rfl, ?_⟩
  simp [expectAgentNotVisiblePasses]

/-- C8 counterexample: at a concrete random source the generated name is
34 characters long — the 25-character stripped display name, an
underscore, then the 8-character suffix — so it is never the stripped
display name followed directly by an 8-character suffix (which would have
33 characters). -/
theorem monitor_name_not_directly_suffixed :
    ¬ ∃ suffix : String, suffix.length = 8 ∧
      (resolveEntry DEFAULT_CONFIG monitorEntry).getAgentName (fun _ => 0) =
        "Monitorappversionschanges" ++ suffix := by
  rintro ⟨s, h8, heq⟩
  have hl : ((resolveEntry DEFAULT_CONFIG monitorEntry).getAgentName (fun _ => 0)).length
      = 34 := by decide
  rw [heq, String.length_append] at hl
  have h25 : ("Monitorappversionschanges" : String).length = 25 := by decide
  omega

/-- C8 (amended): the resolved entry for 'Monitor app versions changes'
carries the claimed appID, initialSchedule, updatedSchedule and
slackChannel, and its getAgentName returns the display name with
whitespace removed, an underscore separator, then an 8-character random
suffix. -/
theorem monitor_resolved_entry_values :
    (resolveEntry DEFAULT_CONFIG monitorEntry).appID = some "android.non.organic.regular"
    ∧ (resolveEntry DEFAULT_CONFIG monitorEntry).initialSchedule = some "Daily at 6:00 PM"
    ∧ (resolveEntry DEFAULT_CONFIG monitorEntry).updatedSchedule = some "Daily at 12:00 PM"
    ∧ (resolveEntry DEFAULT_CONFIG monitorEntry).slackChannel =
        some "rnd-arch-data-availability-poc"
    ∧ ∀ src : RandSource,
        (resolveEntry DEFAULT_CONFIG monitorEntry).getAgentName src =
          "Monitorappversionschanges" ++ "_" ++ generateRandString 8 src
        ∧ (generateRandString 8 src).length = 8 := by
  refine ⟨rfl, rfl, rfl, rfl, fun src => ⟨?_, generateRandString_length 8 src⟩⟩
  show createDefaultGetAgentName "Monitor app versions changes" src = _
  rw [createDefaultGetAgentName,
    show stripWhitespaceChars "Monitor app versions changes" =
      "Monitorappversionschanges" from by decide]

/-- Appending behind the same front string is cancellative. -/
theorem string_append_cancel_left (a b c : String) (h : a ++ b = a ++ c) : b = c := by
  have hd : a.data ++ b.data = a.data ++ c.data := by
    rw [← String.data_append, ← String.data_append, h]
  exact String.ext (List.append_cancel_left hd)

/-- A default-generated name determines its random suffix: two names from
the same seed with distinct suffix draws are distinct. -/
theorem createDefaultGetAgentName_ne_of_suffix_ne (d : String) (s t : RandSource)
    (h : generateRandString 8 s ≠ generateRandString 8 t) :
    createDefaultGetAgentName d s ≠ createDefaultGetAgentName d t := by
  intro he
  simp only [createDefaultGetAgentName] at he
  exact h (string_append_cancel_left _ _ _ he)

/-- The length of a default-generated name: stripped seed, separator,
8-character suffix. -/
theorem createDefaultGetAgentName_length (d : String) (s : RandSource) :
    (createDefaultGetAgentName d s).length = (stripWhitespaceChars d).length + 1 + 8 := by
  simp only [createDefaultGetAgentName, String.length_append, generateRandString_length]
  rw [show ("_" : String).length = 1 from rfl]

/-- The 8-character suffix produced by one vector of digit draws below
the alphabet size: the full space of suffix outcomes. -/
def suffixFromDigits (v : Fin 8 → Fin 62) : String :=
  generateRandString 8 fun i => if h : i < 8 then (v ⟨i, h⟩).val else 0

/-- Distinct digit-draw vectors always produce distinct suffixes: the
suffix space genuinely has `62 ^ 8` elements. -/
theorem suffixFromDigits_injective : Function.Injective suffixFromDigits := by
  have hlen : randAlphabet.length = 62 := by decide
  have hnodup : randAlphabet.Nodup := by decide
  intro v w h
  have hdata := congrArg String.data h
  simp only [suffixFromDigits, generateRandString] at hdata
  have hpt := List.map_inj_left.mp hdata
  funext i
  have hi := hpt i.val (List.mem_range.mpr i.isLt)
  rw [dif_pos i.isLt, dif_pos i.isLt] at hi
  rw [hlen, Nat.mod_eq_of_lt (v i).isLt, Nat.mod_eq_of_lt (w i).isLt] at hi
  have hv : (v i).val < randAlphabet.length := by rw [hlen]; exact (v i).isLt
  have hw : (w i).val < randAlphabet.length := by rw [hlen]; exact (w i).isLt
  rw [List.getD_eq_getElem randAlphabet 'A' hv, List.getD_eq_getElem randAlphabet 'A' hw] at hi
  exact Fin.ext ((List.Nodup.getElem_inj_iff hnodup).mp hi)

/-- C9: distinct calls return distinct names.  Whenever the 8-character
random suffix draws of a run are pairwise distinct — the event the
high-entropy source makes overwhelmingly probable — the N generated names
of any one resolved config are pairwise distinct (a set of cardinality N);
names generated for the two different registry entries differ always; and
the suffix space has exactly `62 ^ 8` outcomes, one per digit vector. -/
theorem generated_names_pairwise_distinct :
    (∀ (d : String) (srcs : List RandSource),
      List.Pairwise (fun s t => generateRandString 8 s ≠ generateRandString 8 t) srcs →
        (srcs.map (createDefaultGetAgentName d)).Nodup
        ∧ (srcs.map (createDefaultGetAgentName d)).length = srcs.length)
    ∧ (∀ s t : RandSource,
        (resolveEntry DEFAULT_CONFIG monitorEntry).getAgentName s ≠
          (resolveEntry DEFAULT_CONFIG deepResearchEntry).getAgentName t)
    ∧ Function.Injective suffixFromDigits
    ∧ Fintype.card (Fin 8 → Fin 62) = 62 ^ 8 := by
  refine ⟨?_, ?_, suffixFromDigits_injective, by rw [Fintype.card_fun, Fintype.card_fin, Fintype.card_fin]⟩
  · intro d srcs hpair
    refine ⟨?_, by simp⟩
    exact List.Pairwise.map (createDefaultGetAgentName d)
      (fun s t hst => createDefaultGetAgentName_ne_of_suffix_ne d s t hst) hpair
  · intro s t h
    have hlen := congrArg String.length h
    have h1 : ((resolveEntry DEFAULT_CONFIG monitorEntry).getAgentName s).length =
        (stripWhitespaceChars "Monitor app versions changes").length + 1 + 8 :=
      createDefaultGetAgentName_length _ s
    have h2 : ((resolveEntry DEFAULT_CONFIG deepResearchEntry).getAgentName t).length =
        (stripWhitespaceChars "Deep research analysis").length + 1 + 8 :=
      createDefaultGetAgentName_length _ t
    have e1 : (stripWhitespaceChars "Monitor app versions changes").length = 25 := by decide
    have e2 : (stripWhitespaceChars "Deep research analysis").length = 20 := by decide
    rw [h1, h2, e1, e2] at hlen
    omega

end AgentE2E
